import Mathlib

/-!
Shallow embedding of the tpn-connect CLI (src/index.cjs): the risk-assessment
functions, the region/lease-time resolution of `main`, the tunnel driver call
sites, and the event-loop of the CONNECTED phase; with theorems checking the
specification's claims against these definitions.
-/

namespace TPNConnect

/-- Risk levels (RISK_LEVELS, src/index.cjs lines 31-36). -/
inductive Risk where
  | HIGH
  | MEDIUM
  | LOW
  | SAFE
deriving DecidableEq, Repr

/-- Trusted network allow-list (KNOWN_NETWORKS, lines 39-42). -/
def KNOWN_NETWORKS : List String := ["MyHomeNetwork", "MyWorkNetwork"]

/-- High-risk country list (HIGH_RISK_COUNTRIES, lines 45-47). -/
def HIGH_RISK_COUNTRIES : List String := ["CN", "RU", "IR", "SA", "VN", "CU"]

/-- One WiFi association as node-wifi reports it: the ssid and the security
field, with `none` standing for an absent (undefined/null) security value. -/
structure WifiNetwork where
  ssid : String
  security : Option String
deriving DecidableEq, Repr

/-- JS falsiness test on the security field (the negation at line 75 reads
`!currentNetwork.security`): falsy when absent or the empty string. -/
def securityFalsy : Option String → Bool
  | none => true
  | some s => s = ""

/-- A WiFi risk verdict: risk level and human-readable reason (the object
shape returned by checkWifiSecurity). -/
structure WifiVerdict where
  risk : Risk
  reason : String
deriving DecidableEq, Repr

/-- Case-insensitive substring test modelling the regex test
`/public|hotel|airport|cafe|free|guest/i.test(ssid)` at line 80. -/
def publicPattern (ssid : String) : Bool :=
  ["public", "hotel", "airport", "cafe", "free", "guest"].any fun w =>
    decide (List.IsInfix (w.data.map Char.toLower) (ssid.data.map Char.toLower))

/-- checkWifiSecurity (lines 58-89). The argument stands for the outcome of
the `wifi.scan()` / `wifi.getCurrentConnections()` calls: `.error ()` when
either throws (caught at line 85), `.ok conns` for the current-connections
list otherwise. -/
def checkWifiSecurity (scan : Except Unit (List WifiNetwork)) : WifiVerdict :=
  match scan with
  | .error _ => ⟨Risk.MEDIUM, "Unable to determine network security"⟩
  | .ok currentConnections =>
    match currentConnections with
    | [] => ⟨Risk.MEDIUM, "Not connected to WiFi"⟩
    | currentNetwork :: _ =>
      if currentNetwork.ssid ∈ KNOWN_NETWORKS then
        ⟨Risk.SAFE, "Connected to known network"⟩
      else if securityFalsy currentNetwork.security ∨ currentNetwork.security = some "Open" then
        ⟨Risk.HIGH, "Connected to unsecured network"⟩
      else if publicPattern currentNetwork.ssid then
        ⟨Risk.MEDIUM, "Connected to public network"⟩
      else
        ⟨Risk.LOW, "Connected to secured network"⟩

/-- The country/city record geoip.lookup returns when the IP resolves. -/
structure GeoInfo where
  country : String
  city : String
deriving DecidableEq, Repr

/-- A location risk verdict: risk level, reason, and the optional location
detail attached at lines 104 and 111. -/
structure LocationVerdict where
  risk : Risk
  reason : String
  location : Option GeoInfo
deriving DecidableEq, Repr

/-- checkLocationSecurity (lines 92-117); the argument stands for the result
of `geoip.lookup(ip)`, `none` when the IP does not resolve (null). -/
def checkLocationSecurity (geo : Option GeoInfo) : LocationVerdict :=
  match geo with
  | none => ⟨Risk.MEDIUM, "Unable to determine location", none⟩
  | some g =>
    if g.country ∈ HIGH_RISK_COUNTRIES then
      ⟨Risk.HIGH, "Located in high-risk country: " ++ g.country, some g⟩
    else
      ⟨Risk.LOW, "Located in standard-risk country", some g⟩

/-- The parsed commander options (lines 304-315): each value flag as the raw
string or `none` when absent, plus the quiet switch. -/
structure Options where
  validator : Option String
  region : Option String
  time : Option String
  quiet : Bool
deriving DecidableEq, Repr

/-- JS truthiness of a string-valued option (the test
`options.region && options.time` at line 383): present and non-empty. -/
def truthy : Option String → Bool
  | none => false
  | some s => s ≠ ""

/-- String.toUpperCase restricted to ASCII letters (`options.region.toUpperCase()`,
line 385). -/
def jsToUpper (s : String) : String := ⟨s.data.map Char.toUpper⟩

/-- The static bucket-to-countries table (regionCountries, lines 392-396). -/
def regionCountries : String → List String
  | "US" => ["US", "CA"]
  | "EU" => ["DE", "FR", "GB", "IT", "ES"]
  | "ASIA" => ["JP", "KR", "SG", "IN"]
  | _ => []

/-- JS parseInt in base 10: skip leading whitespace, optional sign, then the
longest leading digit run; `none` models NaN (`parseInt(options.time)`,
line 417). -/
def jsParseInt (s : String) : Option Int :=
  let cs := s.data.dropWhile Char.isWhitespace
  let signed : Int × List Char :=
    match cs with
    | '-' :: t => (-1, t)
    | '+' :: t => (1, t)
    | _ => (1, cs)
  let ds := signed.2.takeWhile Char.isDigit
  if ds.isEmpty then none
  else some (signed.1 * Int.ofNat (ds.foldl (fun a c => a * 10 + (c.toNat - 48)) 0))

/-- Outcome of the region-selection and lease-time block (lines 380-467):
`failed` models process.exit(1); `interactive` the inquirer-prompt branch
(not modelled further); in `resolved`, the region is `none` exactly when the
code reads `availableRegions[0]` of an empty catalog (JS undefined). -/
inductive Resolution where
  | failed
  | interactive
  | resolved (region : Option String) (leaseTime : Int)
deriving DecidableEq, Repr

/-- Region selection and lease time (lines 380-467). `availableRegions` is the
catalog in use, fetched or fallback. The explicit branch runs only when both
flags are truthy: it validates the bucket, picks the first of the bucket's
countries present in the catalog (falling back to the catalog's first entry
when none is), then validates the parsed lease time. The quiet branch uses
the catalog's first entry and 30 minutes. -/
def resolveRegionTime (options : Options) (availableRegions : List String) : Resolution :=
  if truthy options.region && truthy options.time then
    let regionCode := jsToUpper (options.region.getD "")
    if regionCode ∉ (["US", "EU", "ASIA"] : List String) then Resolution.failed
    else
      let possibleCountries := (regionCountries regionCode).filter
        (fun code => decide (code ∈ availableRegions))
      let selectedRegion :=
        if possibleCountries.isEmpty then availableRegions.head?
        else possibleCountries.head?
      match jsParseInt (options.time.getD "") with
      | none => Resolution.failed
      | some leaseTime =>
        if leaseTime ≤ 0 then Resolution.failed
        else Resolution.resolved selectedRegion leaseTime
  else if !options.quiet then Resolution.interactive
  else Resolution.resolved availableRegions.head? 30

/-- The network calls main issues between validator selection and tunnel
activation: the region-catalog fetch (line 360), the public-IP lookup
(line 473) and the config request (line 503). -/
inductive NetCall where
  | fetchCatalog
  | ipLookup
  | configRequest
deriving DecidableEq, Repr

/-- Fallback catalog substituted when the region fetch fails (line 377). -/
def FALLBACK_REGIONS : List String := ["US", "GB", "DE", "FR", "JP"]

/-- Outcome of the pre-connection part of main: error exit, the interactive
prompt branch, or proceeding to connect with the resolved region and time. -/
inductive Outcome where
  | failedExit
  | interactive
  | proceeded (region : Option String) (leaseTime : Int)
deriving DecidableEq, Repr

/-- The sequence of network calls main makes (lines 352-519, after validator
selection), paired with the outcome. The catalog fetch always happens first;
a fetch error substitutes FALLBACK_REGIONS and proceeds (lines 367-378);
a failed resolution exits before the IP lookup and config request; a
successful one goes on to both. -/
def mainNetTrace (options : Options) (catalogResponse : Except Unit (List String)) :
    List NetCall × Outcome :=
  let availableRegions :=
    match catalogResponse with
    | .ok regions => regions
    | .error _ => FALLBACK_REGIONS
  match resolveRegionTime options availableRegions with
  | Resolution.failed => ([NetCall.fetchCatalog], Outcome.failedExit)
  | Resolution.interactive => ([NetCall.fetchCatalog], Outcome.interactive)
  | Resolution.resolved r t =>
    ([NetCall.fetchCatalog, NetCall.ipLookup, NetCall.configRequest],
      Outcome.proceeded r t)

/-- Seconds of lease granted (`totalSeconds = leaseTime * 60`, line 573). -/
def totalSeconds (leaseTime : Int) : Int := leaseTime * 60

/-- The wg-quick down driver call, as a function of whether the interface is
active: success leaves it inactive; on an inactive interface wg-quick
raises the error safeConnect's handler matches at line 219. -/
def wgQuickDown (active : Bool) : Except String Bool :=
  if active then Except.ok false
  else Except.error "is not a WireGuard interface"

/-- Exit code produced by the teardown call sites (timer expiry lines 593-601,
disconnect handler lines 624-632, quit handler lines 639-647): the down
promise resolving runs process.exit(0), its rejection process.exit(1). -/
def teardownExitCode (active : Bool) : Nat :=
  match wgQuickDown active with
  | Except.ok _ => 0
  | Except.error _ => 1

/-- safeConnect (lines 211-233): a defensive wg-quick down whose error is
caught and ignored, then wg-quick up. `upOk` says whether the up call
succeeds; the result is (returned success flag, tunnel active afterwards). -/
def safeConnect (active : Bool) (upOk : Bool) : Bool × Bool :=
  let afterDown :=
    match wgQuickDown active with
    | Except.ok s => s
    | Except.error _ => active
  if upOk then (true, true) else (false, afterDown)

/-- The session aggregate fixed by the time the CONNECTED phase starts:
validator, resolved region, lease in seconds, config path (lines 324-573). -/
structure Session where
  validatorUID : String
  region : Option String
  durationSeconds : Int
  configPath : String
deriving DecidableEq, Repr

/-- connectionStats (lines 50-55), with countriesVisited as a list of codes. -/
structure ConnectionStats where
  totalConnections : Nat
  totalTime : Nat
  countriesVisited : List String
deriving DecidableEq, Repr

/-- An asynchronous process.exit continuation left pending on a wg-quick down
promise: `normal ok` from the timer-expiry, disconnect and quit paths
(exit 0 on success, 1 on failure); `panic ok` from the panic handler, whose
`process.exit(0)` at line 611 runs whatever happened, because
panicButtonAction (lines 187-208) catches its own errors. -/
inductive PendingExit where
  | normal (downOk : Bool)
  | panic (downOk : Bool)
deriving DecidableEq, Repr

/-- The event-loop state of the CONNECTED phase (lines 573-649): the session
and stats, the countdown, whether the interval timer is still set, whether
terminal input is grabbed, whether the tunnel interface is up, how many
wg-quick down calls were issued, the pending exit continuations, how many
dashboard renders happened, and the exit code once process.exit ran. -/
structure ConnState where
  session : Session
  stats : ConnectionStats
  elapsed : Nat
  total : Nat
  timerActive : Bool
  inputGrabbed : Bool
  tunnelActive : Bool
  downCalls : Nat
  pending : List PendingExit
  renders : Nat
  exited : Option Nat
deriving DecidableEq, Repr

/-- The concurrent signals of the CONNECTED phase: a timer tick, the
disconnect, quit, panic and refresh keys (the quit handler covers both 'q'
and CTRL_C, line 633), and the event-loop turn in which the i-th pending
down promise settles and its continuation calls process.exit. -/
inductive Ev where
  | tick
  | keyD
  | keyQ
  | keyP
  | keyR
  | resolve (i : Nat)
deriving DecidableEq, Repr

/-- Issue one wg-quick down call: its success is the current tunnel state
(wgQuickDown semantics), the interface is down afterwards either way, and
the given continuation is appended to the pending list. -/
def issueDown (s : ConnState) (cont : Bool → PendingExit) : ConnState :=
  { s with
    tunnelActive := false
    downCalls := s.downCalls + 1
    pending := s.pending ++ [cont s.tunnelActive] }

/-- One event-loop turn of the CONNECTED phase, faithful to lines 582-649.
The timer callback (582-603) increments elapsed and totalTime and, at
expiry, clears its own interval and issues a down whose continuation exits
0 or 1; it does not release the input grab. The 'd' and 'q'/CTRL_C handlers
(618-648) release the input grab and issue the same kind of down; they do
not clear the timer. The 'p' handler (608-611) issues the panic down, whose
continuation always exits 0. The 'r' handler (612-617) re-runs the risk
checks and re-renders the dashboard only. A pending continuation runs when
its promise settles. Once process.exit has run, nothing runs. -/
def step (s : ConnState) (e : Ev) : ConnState :=
  if s.exited.isSome then s
  else
    match e with
    | Ev.tick =>
      if !s.timerActive then s
      else
        let s1 := { s with
          elapsed := s.elapsed + 1
          stats := { s.stats with totalTime := s.stats.totalTime + 1 } }
        if s1.elapsed ≥ s1.total then
          issueDown { s1 with timerActive := false } PendingExit.normal
        else s1
    | Ev.keyD =>
      if !s.inputGrabbed then s
      else issueDown { s with inputGrabbed := false } PendingExit.normal
    | Ev.keyQ =>
      if !s.inputGrabbed then s
      else issueDown { s with inputGrabbed := false } PendingExit.normal
    | Ev.keyP =>
      if !s.inputGrabbed then s
      else issueDown s PendingExit.panic
    | Ev.keyR =>
      if !s.inputGrabbed then s
      else { s with renders := s.renders + 1 }
    | Ev.resolve i =>
      match s.pending[i]? with
      | none => s
      | some (PendingExit.normal ok) =>
        { s with
          exited := some (if ok then 0 else 1)
          pending := s.pending.eraseIdx i }
      | some (PendingExit.panic _) =>
        { s with exited := some 0, pending := s.pending.eraseIdx i }

/-- Run a schedule of events through the CONNECTED-phase event loop. -/
def run (s : ConnState) (evs : List Ev) : ConnState := evs.foldl step s

/-- A concrete freshly-connected state: a one-minute lease just activated,
timer set, input grabbed, tunnel up, no down call issued yet. -/
def connectedInit : ConnState :=
  { session :=
      { validatorUID := "4"
        region := some "DE"
        durationSeconds := 60
        configPath := "./tpn-connect.conf" }
    stats := { totalConnections := 1, totalTime := 0, countriesVisited := ["US"] }
    elapsed := 0
    total := 60
    timerActive := true
    inputGrabbed := true
    tunnelActive := true
    downCalls := 0
    pending := []
    renders := 0
    exited := none }

/-- C6: checkWifiSecurity applies its policy in strict priority order and
returns SAFE exactly when the current SSID is in the trusted allow-list,
regardless of encryption: allow-listed SSID gives SAFE; otherwise an open or
unencrypted network gives HIGH; otherwise an SSID matching the
public/guest/hotel/airport/cafe/free pattern case-insensitively gives
MEDIUM; otherwise LOW; no current WiFi association gives MEDIUM; any scan
failure gives MEDIUM, never SAFE. -/
theorem wifiPolicyPriority (scan : Except Unit (List WifiNetwork)) :
    ((checkWifiSecurity scan).risk = Risk.SAFE ↔
      ∃ n rest, scan = Except.ok (n :: rest) ∧ n.ssid ∈ KNOWN_NETWORKS)
    ∧ (∀ n rest, scan = Except.ok (n :: rest) → n.ssid ∉ KNOWN_NETWORKS →
        (securityFalsy n.security ∨ n.security = some "Open") →
        (checkWifiSecurity scan).risk = Risk.HIGH)
    ∧ (∀ n rest, scan = Except.ok (n :: rest) → n.ssid ∉ KNOWN_NETWORKS →
        ¬(securityFalsy n.security ∨ n.security = some "Open") →
        publicPattern n.ssid = true →
        (checkWifiSecurity scan).risk = Risk.MEDIUM)
    ∧ (∀ n rest, scan = Except.ok (n :: rest) → n.ssid ∉ KNOWN_NETWORKS →
        ¬(securityFalsy n.security ∨ n.security = some "Open") →
        publicPattern n.ssid = false →
        (checkWifiSecurity scan).risk = Risk.LOW)
    ∧ (scan = Except.ok [] →
        checkWifiSecurity scan = ⟨Risk.MEDIUM, "Not connected to WiFi"⟩)
    ∧ (∀ e, scan = Except.error e → (checkWifiSecurity scan).risk = Risk.MEDIUM) := by
  refine ⟨?_, ?_, ?_, ?_, ?_, ?_⟩
  · cases scan with
    | error e => simp [checkWifiSecurity]
    | ok l =>
      cases l with
      | nil => simp [checkWifiSecurity]
      | cons n rest =>
        by_cases hk : n.ssid ∈ KNOWN_NETWORKS
        · simp [checkWifiSecurity, hk]
        · simp only [checkWifiSecurity, if_neg hk]
          split_ifs <;> simp [hk]
  · rintro n rest rfl hk hopen
    simp [checkWifiSecurity, hk, hopen]
  · rintro n rest rfl hk hopen hpat
    simp [checkWifiSecurity, hk, hopen, hpat]
  · rintro n rest rfl hk hopen hpat
    simp [checkWifiSecurity, hk, hopen, hpat]
  · rintro rfl
    simp [checkWifiSecurity]
  · rintro e rfl
    simp [checkWifiSecurity]

/-- C6 witness: a network named Airport Free WiFi with WPA2, not in the
allow-list, is MEDIUM and not SAFE; MyHomeNetwork is SAFE even when open. -/
theorem wifiPolicyPriorityWitness :
    (checkWifiSecurity (Except.ok [⟨"Airport Free WiFi", some "WPA2"⟩])).risk
        = Risk.MEDIUM
    ∧ (checkWifiSecurity (Except.ok [⟨"MyHomeNetwork", none⟩])).risk = Risk.SAFE := by
  constructor
  · exact (wifiPolicyPriority (Except.ok [⟨"Airport Free WiFi", some "WPA2"⟩])).2.2.1
      ⟨"Airport Free WiFi", some "WPA2"⟩ [] rfl (by decide) (by decide) (by decide)
  · exact ((wifiPolicyPriority (Except.ok [⟨"MyHomeNetwork", none⟩])).1).2
      ⟨⟨"MyHomeNetwork", none⟩, [], rfl, by decide⟩

/-- C7: checkLocationSecurity returns HIGH with the location detail attached
when the resolved country is on the fixed high-risk list (in particular
RU); MEDIUM with no location detail when the IP is unresolvable; and LOW
with the location detail attached otherwise. -/
theorem locationPolicy (geo : Option GeoInfo) :
    (∀ g, geo = some g → g.country ∈ HIGH_RISK_COUNTRIES →
      checkLocationSecurity geo
        = ⟨Risk.HIGH, "Located in high-risk country: " ++ g.country, some g⟩)
    ∧ (∀ g, geo = some g → g.country = "RU" →
        (checkLocationSecurity geo).risk = Risk.HIGH)
    ∧ (geo = none →
        checkLocationSecurity geo = ⟨Risk.MEDIUM, "Unable to determine location", none⟩)
    ∧ (∀ g, geo = some g → g.country ∉ HIGH_RISK_COUNTRIES →
        checkLocationSecurity geo
          = ⟨Risk.LOW, "Located in standard-risk country", some g⟩) := by
  refine ⟨?_, ?_, ?_, ?_⟩
  · rintro g rfl hc
    simp [checkLocationSecurity, hc]
  · rintro g rfl hc
    simp [checkLocationSecurity, hc, HIGH_RISK_COUNTRIES]
  · rintro rfl
    simp [checkLocationSecurity]
  · rintro g rfl hc
    simp [checkLocationSecurity, hc]

/-- C7 witness: an IP resolving to RU is HIGH with the location attached; an
unresolvable IP is MEDIUM with no location. -/
theorem locationPolicyWitness :
    checkLocationSecurity (some ⟨"RU", "Moscow"⟩)
      = ⟨Risk.HIGH, "Located in high-risk country: RU", some ⟨"RU", "Moscow"⟩⟩
    ∧ checkLocationSecurity none
      = ⟨Risk.MEDIUM, "Unable to determine location", none⟩ := by
  constructor
  · exact (locationPolicy (some ⟨"RU", "Moscow"⟩)).1 ⟨"RU", "Moscow"⟩ rfl (by decide)
  · exact (locationPolicy none).2.2.1 rfl

/-- A lease-time string that parses to an integer is a non-empty, hence
truthy, option value. -/
theorem truthyOfParse {ts : String} {n : Int} (h : jsParseInt ts = some n) :
    truthy (some ts) = true := by
  simp only [truthy, decide_eq_true_eq]
  rintro rfl
  simp [jsParseInt] at h

/-- C8: for every region bucket among US, EU and ASIA and every non-empty
catalog, if none of the bucket's mapped countries appear in the catalog,
the selected region is the catalog's first element and resolution proceeds
(with the parsed positive lease time) rather than failing. -/
theorem bucketFallbackDeterminism (options : Options) (r : String)
    (rest : List String) (ts : String) (n : Int)
    (hr : truthy options.region = true)
    (hb : jsToUpper (options.region.getD "") ∈ (["US", "EU", "ASIA"] : List String))
    (ht : options.time = some ts)
    (hn : jsParseInt ts = some n) (hpos : 0 < n)
    (hmiss : ∀ c ∈ regionCountries (jsToUpper (options.region.getD "")), c ∉ r :: rest) :
    resolveRegionTime options (r :: rest) = Resolution.resolved (some r) n := by
  have htt : truthy options.time = true := ht ▸ truthyOfParse hn
  have hfil : (regionCountries (jsToUpper (options.region.getD ""))).filter
      (fun code => decide (code ∈ r :: rest)) = [] := by
    apply List.filter_eq_nil_iff.mpr
    intro a ha
    simpa using hmiss a ha
  have hmiss' : ∀ a ∈ regionCountries (jsToUpper (options.region.getD "")),
      ¬a = r ∧ a ∉ rest := by
    intro a ha
    have h2 := hmiss a ha
    simp only [List.mem_cons, not_or] at h2
    exact h2
  simp [resolveRegionTime, hr, htt, ht, hb, hfil, hn, not_le.mpr hpos,
    truthyOfParse hn, hmiss']
  intro x hx hcontra
  exact absurd (hcontra (hmiss' x hx).1) (hmiss' x hx).2

/-- C8 witness: bucket ASIA over catalog [US, GB] shares no country with the
catalog, so resolution falls back to US and proceeds with the 5-minute
lease. -/
theorem bucketFallbackDeterminismWitness :
    resolveRegionTime ⟨none, some "ASIA", some "5", true⟩ ["US", "GB"]
      = Resolution.resolved (some "US") 5 :=
  bucketFallbackDeterminism ⟨none, some "ASIA", some "5", true⟩ "US" ["GB"] "5" 5
    (by decide) (by decide) rfl (by decide) (by decide) (by decide)

/-- C10: with quiet mode set and exactly one of the region and time flags
truthy, the explicit branch is skipped: resolution yields the catalog's
first entry with the 30-minute default, and the supplied flag's value is
never validated. -/
theorem singleFlagIgnored (options : Options) (r : String) (rest : List String)
    (hq : options.quiet = true)
    (hone : (truthy options.region = true ∧ truthy options.time = false)
      ∨ (truthy options.region = false ∧ truthy options.time = true)) :
    resolveRegionTime options (r :: rest) = Resolution.resolved (some r) 30 := by
  rcases hone with ⟨h1, h2⟩ | ⟨h1, h2⟩ <;>
    simp [resolveRegionTime, h1, h2, hq]

/-- C10 witness: quiet mode with only a non-positive time flag, --time 0,
resolves to the catalog's first entry and 30 minutes without failing. -/
theorem singleFlagIgnoredWitness :
    resolveRegionTime ⟨none, none, some "0", true⟩ ["US", "GB", "DE"]
      = Resolution.resolved (some "US") 30 :=
  singleFlagIgnored ⟨none, none, some "0", true⟩ "US" ["GB", "DE"] rfl
    (Or.inr ⟨by decide, by decide⟩)

/-- C3 counterexample: for catalog [US, GB, DE] with bucket EU and time 60,
the resolved region is DE — the first element of the bucket's mapped list
[DE, FR, GB, IT, ES] present in the catalog — not GB, the first element of
the catalog belonging to the bucket. -/
theorem euBucketPicksDENotGB :
    resolveRegionTime ⟨none, some "EU", some "60", false⟩ ["US", "GB", "DE"]
      = Resolution.resolved (some "DE") 60
    ∧ Resolution.resolved (some "DE") 60 ≠ Resolution.resolved (some "GB") 60 := by
  decide

/-- C3 amended: when an explicit valid region bucket and a positive duration
are supplied and at least one of the bucket's mapped countries appears in
the catalog, the resolved region is the first element of the bucket's
mapped country list, in mapping order, that appears in the catalog; and a
lease of 60 minutes is 3600 seconds. -/
theorem explicitBucketFirstHit (options : Options) (catalog : List String)
    (ts : String) (n : Int) (c : String) (cs : List String)
    (hr : truthy options.region = true)
    (hb : jsToUpper (options.region.getD "") ∈ (["US", "EU", "ASIA"] : List String))
    (ht : options.time = some ts)
    (hn : jsParseInt ts = some n) (hpos : 0 < n)
    (hfilter : (regionCountries (jsToUpper (options.region.getD ""))).filter
        (fun code => decide (code ∈ catalog)) = c :: cs) :
    resolveRegionTime options catalog = Resolution.resolved (some c) n
    ∧ totalSeconds 60 = 3600 := by
  refine ⟨?_, by decide⟩
  simp [resolveRegionTime, hr, ht, truthyOfParse hn, hb, hfilter, hn, not_le.mpr hpos]

/-- C3 amended witness: the scenario itself — catalog [US, GB, DE], bucket
EU, time 60 — resolves to DE with a 3600-second lease. -/
theorem explicitBucketFirstHitWitness :
    resolveRegionTime ⟨none, some "EU", some "60", false⟩ ["US", "GB", "DE"]
      = Resolution.resolved (some "DE") 60
    ∧ totalSeconds 60 = 3600 :=
  explicitBucketFirstHit ⟨none, some "EU", some "60", false⟩ ["US", "GB", "DE"]
    "60" 60 "DE" ["GB"] (by decide) (by decide) rfl (by decide) (by decide) (by decide)

/-- C2 counterexample: with --region US --time 0 the run fails only after the
region-catalog network call has been made, and with --time 0 alone in quiet
mode nothing fails at all — the run proceeds through the IP lookup and the
config request with the defaults. -/
theorem timeZeroAfterFetchCx :
    mainNetTrace ⟨none, some "US", some "0", false⟩ (Except.ok ["US", "GB", "DE"])
      = ([NetCall.fetchCatalog], Outcome.failedExit)
    ∧ mainNetTrace ⟨none, none, some "0", true⟩ (Except.ok ["US", "GB", "DE"])
      = ([NetCall.fetchCatalog, NetCall.ipLookup, NetCall.configRequest],
          Outcome.proceeded (some "US") 30)
    ∧ ([NetCall.fetchCatalog] : List NetCall) ≠ [] := by
  decide

/-- C2 amended: for every explicitly supplied --time <n> with n non-positive
together with a truthy --region, the run reaches the error exit after the
region-catalog fetch but before the IP lookup and the config request. -/
theorem timeNonpositiveFailsAfterFetch (options : Options)
    (catalogResponse : Except Unit (List String)) (ts : String) (n : Int)
    (hr : truthy options.region = true) (ht : options.time = some ts)
    (hn : jsParseInt ts = some n) (hnp : n ≤ 0) :
    mainNetTrace options catalogResponse
      = ([NetCall.fetchCatalog], Outcome.failedExit) := by
  have hfail : ∀ regions : List String,
      resolveRegionTime options regions = Resolution.failed := by
    intro regions
    by_cases hb : jsToUpper (options.region.getD "") ∈ (["US", "EU", "ASIA"] : List String)
    · simp [resolveRegionTime, hr, ht, truthyOfParse hn, hb, hn, hnp]
    · simp [resolveRegionTime, hr, ht, truthyOfParse hn, hb]
  cases catalogResponse with
  | ok regions => simp [mainNetTrace, hfail]
  | error e => simp [mainNetTrace, hfail]

/-- C2 amended witness: --region EU --time -5 fails right after the catalog
fetch. -/
theorem timeNonpositiveFailsAfterFetchWitness :
    mainNetTrace ⟨none, some "EU", some "-5", false⟩ (Except.ok ["US"])
      = ([NetCall.fetchCatalog], Outcome.failedExit) :=
  timeNonpositiveFailsAfterFetch ⟨none, some "EU", some "-5", false⟩
    (Except.ok ["US"]) "-5" (-5) (by decide) rfl (by decide) (by decide)

/-- C4 counterexample: the second of two deactivates in succession is not a
success — wg-quick down on an active interface succeeds, but the
immediately following down on the now-inactive interface raises the driver
error the code itself matches, and a teardown call site turns it into exit
code 1. -/
theorem deactivateTwiceErrors :
    wgQuickDown true = Except.ok false
    ∧ wgQuickDown false = Except.error "is not a WireGuard interface"
    ∧ teardownExitCode false = 1 :=
  ⟨rfl, rfl, rfl⟩

/-- C4 amended: deactivate on a path with no active tunnel is an error at the
driver level, treated as a no-op only by the defensive pre-activate call
site: safeConnect succeeds exactly when activation succeeds, from inactive
and active starting states alike, while the teardown call sites exit 0 on a
successful deactivate and 1 on the failed one. -/
theorem deactivateIdempotentOnlyDefensively (upOk : Bool) :
    (safeConnect false upOk).1 = upOk
    ∧ (safeConnect true upOk).1 = upOk
    ∧ teardownExitCode true = 0
    ∧ teardownExitCode false = 1 := by
  cases upOk <;> decide

set_option maxRecDepth 8000 in
/-- C5 counterexample: after the lease expires and its deactivation succeeds,
a panic key issues a second deactivation that fails — yet when the panic
continuation runs, the process exits with code 0, not non-zero. -/
theorem panicExitsZeroOnFailedDown :
    (run connectedInit (List.replicate 60 Ev.tick ++ [Ev.keyP])).pending
      = [PendingExit.normal true, PendingExit.panic false]
    ∧ (run connectedInit
        (List.replicate 60 Ev.tick ++ [Ev.keyP, Ev.resolve 1])).exited = some 0 := by
  decide

/-- C5 amended: when a pending exit continuation runs, the expiry, disconnect
and quit paths exit 0 exactly when their deactivation succeeded and 1 when
it failed, while the panic path exits 0 whether or not its deactivation
succeeded. -/
theorem exitCodesByPath (s : ConnState) (i : Nat) (ok : Bool) :
    (s.exited = none → s.pending[i]? = some (PendingExit.normal ok) →
      (step s (Ev.resolve i)).exited = some (if ok then 0 else 1))
    ∧ (s.exited = none → s.pending[i]? = some (PendingExit.panic ok) →
      (step s (Ev.resolve i)).exited = some 0) := by
  constructor
  · intro he hp
    simp [step, he, hp]
  · intro he hp
    simp [step, he, hp]

set_option maxRecDepth 8000 in
/-- C1 exhibit: the code has no termination-requested flag, so a schedule in
which the countdown expires and the disconnect key arrives before the
pending exit continuation runs issues two wg-quick down calls in one
session. -/
theorem expiryThenDisconnectTwoDowns :
    (run connectedInit (List.replicate 60 Ev.tick ++ [Ev.keyD])).downCalls = 2 := by
  decide

/-- C9: the refresh key is read-only — it re-runs the risk checks and
re-renders the dashboard, leaving the session, the connection statistics,
the countdown, the timer, the input grab, the tunnel state, the issued
deactivations, the pending exits and the exit status unchanged. -/
theorem refreshReadOnly (s : ConnState) :
    (step s Ev.keyR).session = s.session
    ∧ (step s Ev.keyR).stats = s.stats
    ∧ (step s Ev.keyR).elapsed = s.elapsed
    ∧ (step s Ev.keyR).total = s.total
    ∧ (step s Ev.keyR).timerActive = s.timerActive
    ∧ (step s Ev.keyR).inputGrabbed = s.inputGrabbed
    ∧ (step s Ev.keyR).tunnelActive = s.tunnelActive
    ∧ (step s Ev.keyR).downCalls = s.downCalls
    ∧ (step s Ev.keyR).pending = s.pending
    ∧ (step s Ev.keyR).exited = s.exited := by
  unfold step
  split_ifs <;> simp

end TPNConnect
